import Mathlib

/-!
Verification development for the Streaming Conversion & Tiered Validation
Engine of the paper-trail-api repository.

The Python sources under `scripts/dime_converter/` (converter.py, schema.py,
validators.py, exceptions.py) and `scripts/distinct_legislators/`
(extractor.py, validators.py, exceptions.py) are shallowly embedded below.
Python floats are modelled as exact rationals (`MRat`) extended with a NaN
marker (`FloatV`); file handles and network streams are modelled as values
of an explicit `Source` type; Python's dynamic call errors (`TypeError`,
`StopIteration`, `OSError`, `KeyError`, `AttributeError`) are constructors
of an explicit error type alongside the repository's own typed exceptions.
-/

namespace PaperTrail

/-! ## Exact rationals, kernel-computable

A small rational-number type used to model Python/Arrow doubles exactly.
All operations are built from `Int`/`Nat` primitives so that every concrete
run of the embedded code evaluates inside the kernel; results are kept
normalized by a fuel-driven gcd. -/

/-- Euclidean gcd with explicit fuel (the fuel is always sufficient because
the first numeric argument strictly decreases). -/
def gcdGo : ℕ → ℕ → ℕ → ℕ
  | 0, _, y => y
  | _ + 1, 0, y => y
  | f + 1, x + 1, y => gcdGo f (y % (x + 1)) (x + 1)

/-- Gcd of two naturals. -/
def natGcd (x y : ℕ) : ℕ := gcdGo (x + 1) x y

/-- An exact rational: numerator and positive denominator, normalized by
construction. -/
structure MRat : Type where
  num : ℤ
  den : ℕ
deriving DecidableEq

/-- Build a rational from a numerator and a positive denominator, reducing
by the gcd. -/
def mkQ (n : ℤ) (d : ℕ) : MRat :=
  let g := natGcd n.natAbs d
  ⟨n / (g : ℤ), d / g⟩

/-- Embed an integer. -/
def intQ (z : ℤ) : MRat := ⟨z, 1⟩

def addQ (a b : MRat) : MRat :=
  mkQ (a.num * (b.den : ℤ) + b.num * (a.den : ℤ)) (a.den * b.den)

def subQ (a b : MRat) : MRat :=
  mkQ (a.num * (b.den : ℤ) - b.num * (a.den : ℤ)) (a.den * b.den)

def negQ (a : MRat) : MRat := ⟨-a.num, a.den⟩

def absQ (a : MRat) : MRat := ⟨|a.num|, a.den⟩

/-- Scale by an integer power of ten (used for the exponent part of float
literals). -/
def scaleQ (a : MRat) (e : ℤ) : MRat :=
  if 0 ≤ e then mkQ (a.num * (10 : ℤ) ^ e.toNat) a.den
  else mkQ a.num (a.den * 10 ^ (-e).toNat)

/-- Strict order, by cross multiplication. -/
def ltQ (a b : MRat) : Prop := a.num * (b.den : ℤ) < b.num * (a.den : ℤ)

/-- Non-strict order, by cross multiplication. -/
def leQ (a b : MRat) : Prop := a.num * (b.den : ℤ) ≤ b.num * (a.den : ℤ)

instance (a b : MRat) : Decidable (ltQ a b) := by unfold ltQ; infer_instance

instance (a b : MRat) : Decidable (leQ a b) := by unfold leQ; infer_instance

/-- Boolean strict comparison. -/
def bltQ (a b : MRat) : Bool := decide (ltQ a b)

/-! ## Floats modelled as rationals plus NaN -/

/-- A Python/Arrow double: either a finite value (exact rational) or NaN.
Infinities do not occur in the modelled data and are left out. -/
inductive FloatV : Type
  | nan : FloatV
  | fin (q : MRat) : FloatV
deriving DecidableEq

/-- IEEE addition on the model: NaN is absorbing, finite values add exactly. -/
def addF : FloatV → FloatV → FloatV
  | .fin a, .fin b => .fin (addQ a b)
  | _, _ => .nan

/-- Python `abs(a - b) > tol` on floats: any comparison with NaN is False. -/
def subAbsGtTol (a b : FloatV) (tol : MRat) : Bool :=
  match a, b with
  | .fin x, .fin y => bltQ tol (absQ (subQ x y))
  | _, _ => false

/-! ## String-to-number parsing

Models the numeric conversions performed by PyArrow's CSV reader and by
Python's `float()` builtin on the decimal/exponent notation that occurs in
the data.  (`inf` literals are outside the model.) -/

def allDigits (cs : List Char) : Bool := cs.all (fun c => c.isDigit)

def natOfDigits (cs : List Char) : Nat :=
  cs.foldl (fun n c => n * 10 + (c.toNat - 48)) 0

/-- Strip one optional leading sign; return whether it was a minus. -/
def splitSign : List Char → Bool × List Char
  | '+' :: cs => (false, cs)
  | '-' :: cs => (true, cs)
  | cs => (false, cs)

/-- Split a char list at the first occurrence of `sep`. -/
def splitAtChar (sep : Char) : List Char → List Char × Option (List Char)
  | [] => ([], none)
  | c :: cs =>
    if c = sep then ([], some cs)
    else
      let r := splitAtChar sep cs
      (c :: r.1, r.2)

/-- Kernel-computable lower-casing (ASCII suffices for the modelled data). -/
def lowerStr (s : String) : String := ⟨s.data.map Char.toLower⟩

/-- Kernel-computable `str.strip()`. -/
def trimStr (s : String) : String :=
  ⟨((s.data.dropWhile Char.isWhitespace).reverse.dropWhile
      Char.isWhitespace).reverse⟩

/-- Parse an unsigned decimal mantissa `digits[.digits]` (at least one digit). -/
def parseMantissa (cs : List Char) : Option MRat :=
  let p := splitAtChar '.' cs
  let ip := p.1
  let fp := (p.2).getD []
  if allDigits ip ∧ allDigits fp ∧ (ip ≠ [] ∨ fp ≠ []) then
    some (mkQ ((natOfDigits ip : ℤ) * (10 : ℤ) ^ fp.length + (natOfDigits fp : ℤ))
      (10 ^ fp.length))
  else none

/-- Parse a signed decimal exponent part. -/
def parseExpPart : Option (List Char) → Option ℤ
  | none => some 0
  | some ecs =>
    let se := splitSign ecs
    if se.2 ≠ [] ∧ allDigits se.2 then
      some (if se.1 then -(natOfDigits se.2 : ℤ) else (natOfDigits se.2 : ℤ))
    else none

/-- The finite result of Python `float(s)` / Arrow string-to-double, as an
exact rational; `none` when the string does not parse as a finite float. -/
def parseFloatQ (s : String) : Option MRat :=
  let cs := (lowerStr s).toList
  let sg := splitSign cs
  let me := splitAtChar 'e' sg.2
  match parseMantissa me.1, parseExpPart me.2 with
  | some m, some e => some (scaleQ (if sg.1 then negQ m else m) e)
  | _, _ => none

/-- Arrow string-to-double including the NaN literal. -/
def parseFloatV (s : String) : Option FloatV :=
  let t := lowerStr s
  if t = "nan" ∨ t = "+nan" ∨ t = "-nan" then some .nan
  else (parseFloatQ s).map .fin

/-- Arrow string-to-integer: optional sign followed by digits.  Values in the
modelled data fit the declared widths, so overflow is not modelled. -/
def parseIntZ (s : String) : Option ℤ :=
  let sg := splitSign s.toList
  if sg.2 ≠ [] ∧ allDigits sg.2 then
    some (if sg.1 then -(natOfDigits sg.2 : ℤ) else (natOfDigits sg.2 : ℤ))
  else none

/-! ## Data model (schema.py) -/

/-- A parquet/arrow cell value. -/
inductive DVal : Type
  | int (z : ℤ)
  | float (v : FloatV)
  | str (s : String)
deriving DecidableEq

/-- Semantic column type, as declared in the per-file-type schema dicts of
schema.py (pa.int32 / pa.float64 / pa.string). -/
inductive ColType : Type
  | int
  | float
  | str
deriving DecidableEq

/-- `NULL_VALUES = ["\\N", ""]` (schema.py): MySQL export null marker and
empty string. -/
def NULL_VALUES : List String := ["\\N", ""]

/-- `FileTypeConfig` (schema.py): per-file-type configuration. -/
structure FileTypeConfig : Type where
  schema : List (String × ColType)
  expected_columns : List String
  sum_column : Option String
  key_columns : List String
deriving DecidableEq

/-- Declared type of a column; columns outside the declared schema would be
type-inferred by Arrow, modelled here as strings. -/
def colTypeOf (cfg : FileTypeConfig) (name : String) : ColType :=
  (cfg.schema.lookup name).getD .str

/-! ## Error taxonomy (exceptions.py), plus Python's own dynamic errors -/

/-- Expected/actual payload of `ChecksumMismatchError` (`float | int`). -/
inductive ChkVal : Type
  | f (v : FloatV)
  | n (k : ℕ)
deriving DecidableEq

/-- The typed errors of exceptions.py (subclasses of `DIMEConversionError`).
Only the structured context fields are modelled; `source_path` is dropped. -/
inductive DIMEConversionError : Type
  | csvParseError (message : String) (line_number : Option ℕ)
      (column_name : Option String) (problematic_value : Option String)
  | rowCountMismatch (expected_rows actual_rows : ℕ)
  | checksumMismatch (message : String) (column_name : String)
      (expected_value actual_value : ChkVal)
  | sampleMismatch (row_index : ℕ) (column_name : String)
      (expected_value actual_value : String)
  | schemaValidation (expected_columns actual_columns : List String)
deriving DecidableEq

/-- Everything a converter run can raise: the repository's typed errors, or
an untyped Python/OS exception escaping from library calls. -/
inductive PyErr : Type
  | dime (e : DIMEConversionError)
  | osError
  | stopIteration
  | attributeError
  | keyError
deriving DecidableEq

/-- Whether an error belongs to the converter's typed taxonomy
(`DIMEConversionError` and subclasses). -/
def isDimeErr : PyErr → Bool
  | .dime _ => true
  | _ => false

deriving instance DecidableEq for Except

/-! ## Sources and the row counter (converter.py `_count_csv_rows`) -/

/-- A source file handle: either it cannot be opened/read, or it yields a
list of logical CSV records (each a list of fields; embedded newlines inside
quoted fields are already part of a single logical record).  The first
record, when present, is the header. -/
inductive Source : Type
  | unreadable
  | content (records : List (List String))

/-- `_count_csv_rows` (converter.py): skips the header with an unguarded
`next(reader)` and counts the remaining data records.  On an unreadable
path `gzip.open` raises `OSError`; on a source with no records at all the
header skip raises `StopIteration`. -/
def count_csv_rows : Source → Except PyErr ℕ
  | .unreadable => .error .osError
  | .content [] => .error .stopIteration
  | .content (_ :: rows) => .ok rows.length

/-! ## Streaming conversion (converter.py `_stream_csv_to_parquet`) -/

/-- A raw CSV data record (list of field strings). -/
abbrev RawRow := List String

/-- A typed record as written to parquet (one `Option DVal` per column). -/
abbrev ParsedRow := List (Option DVal)

/-- `StreamingStats` (converter.py): statistics accumulated during streaming
conversion.  `non_null_counts` is the Python dict, modelled as an
association list. -/
structure StreamingStats : Type where
  row_count : ℕ := 0
  sum_column_value : FloatV := .fin (intQ 0)
  non_null_counts : List (String × ℕ) := []
  schema : Option (List String) := none
deriving DecidableEq

/-- Dict read `d.get(k, 0)`. -/
def lookupD (d : List (String × ℕ)) (k : String) : ℕ :=
  match d with
  | [] => 0
  | (k', v) :: rest => if k' = k then v else lookupD rest k

/-- Dict update `d[k] = d.get(k, 0) + n` (inserting if absent; during
streaming the key is always present, seeded by the stats initialiser). -/
def dictAdd (d : List (String × ℕ)) (k : String) (n : ℕ) : List (String × ℕ) :=
  match d with
  | [] => [(k, n)]
  | (k', v) :: rest =>
    if k' = k then (k', v + n) :: rest else (k', v) :: dictAdd rest k n

/-- Convert one cell under its declared type, honouring the null tokens
(`ConvertOptions(null_values=NULL_VALUES, strings_can_be_null=True)`).
`none` means the value is unparseable and not a null token. -/
def parseCell (t : ColType) (s : String) : Option (Option DVal) :=
  if s ∈ NULL_VALUES then some none
  else
    match t with
    | .int => (parseIntZ s).map (fun z => some (.int z))
    | .float => (parseFloatV s).map (fun v => some (.float v))
    | .str => some (some (.str s))

/-- Convert a list of (column, value) pairs; `none` as soon as any cell is
unparseable. -/
def parseCells (cfg : FileTypeConfig) :
    List (String × String) → Option (List (Option DVal))
  | [] => some []
  | p :: ps =>
    match parseCell (colTypeOf cfg p.1) p.2, parseCells cfg ps with
    | some v, some vs => some (v :: vs)
    | _, _ => none

/-- Convert one record against the header under the declared column types.
`none` when the record is invalid: wrong field count, or some value
unparseable under its declared type and not a null token. -/
def parseRow (cfg : FileTypeConfig) (hdr : List String) (r : RawRow) :
    Option ParsedRow :=
  if r.length = hdr.length then parseCells cfg (hdr.zip r) else none

/-- The record contains a value that is not parseable under its column's
declared type and is not a null token. -/
def hasBadValueB (cfg : FileTypeConfig) (hdr : List String) (r : RawRow) :
    Bool :=
  (hdr.zip r).any (fun p => (parseCell (colTypeOf cfg p.1) p.2).isNone)

/-- The record as raw text (fields joined by the delimiter), as reported by
the invalid-row handler. -/
def rawText (r : RawRow) : String := String.intercalate "," r

/-- `str(row.text)[:500]` in the invalid-row handler. -/
def truncate500 (s : String) : String := ⟨s.data.take 500⟩

/-- Message prefix of the `CSVParseError` raised in `_stream_csv_to_parquet`
(the library's own message text is not modelled). -/
def pyarrowErrMsg : String := "PyArrow CSV parse error"

/-- Position of a column name in the header. -/
def colIdx (c : String) : List String → Option ℕ
  | [] => Option.none
  | h :: t => if h = c then some 0 else (colIdx c t).map (fun i => i + 1)

/-- Column accessor `batch.column(name)` over a parsed batch (empty when the
name is absent; callers guard membership). -/
def columnOf (hdr : List String) (c : String) (batch : List ParsedRow) :
    List (Option DVal) :=
  match colIdx c hdr with
  | some i => batch.map (fun r => (r.get? i).join)
  | none => []

/-- `pc.count` (non-null count) over a column. -/
def nonNullCount (col : List (Option DVal)) : ℕ :=
  (col.filter (fun v => v.isSome)).length

/-- Float content of a cell (nulls and non-floats excluded). -/
def cellFloat : Option DVal → Option FloatV
  | some (.float v) => some v
  | _ => none

/-- `pc.sum` over a float column: `none` when every value is null, otherwise
the IEEE sum of the non-null values (NaN absorbing). -/
def sumFloat (col : List (Option DVal)) : Option FloatV :=
  let vs := col.filterMap cellFloat
  match vs with
  | [] => none
  | _ => some (vs.foldl addF (.fin (intQ 0)))

/-- Stats initialiser: `row_count = 0`, `sum = 0.0`, each key column seeded
with a zero non-null count, no schema yet. -/
def initStats (cfg : FileTypeConfig) : StreamingStats :=
  { row_count := 0
    sum_column_value := .fin (intQ 0)
    non_null_counts := cfg.key_columns.map (fun c => (c, 0))
    schema := none }

/-- Per-batch bookkeeping of `_stream_csv_to_parquet`: capture the schema on
the first batch, then `row_count += rows`, add the checksum-column batch sum
when the column is configured and present and the batch sum is not null, and
add each present key column's non-null count. -/
def processBatch (cfg : FileTypeConfig) (hdr : List String)
    (st : StreamingStats) (batch : List ParsedRow) : StreamingStats :=
  let st1 := match st.schema with
    | none => { st with schema := some hdr }
    | some _ => st
  let st2 := { st1 with row_count := st1.row_count + batch.length }
  let st3 := match cfg.sum_column with
    | some c =>
      if c ∈ hdr then
        match sumFloat (columnOf hdr c batch) with
        | none => st2
        | some v => { st2 with sum_column_value := addF st2.sum_column_value v }
      else st2
    | none => st2
  { st3 with
    non_null_counts :=
      cfg.key_columns.foldl
        (fun d col =>
          if col ∈ hdr then dictAdd d col (nonNullCount (columnOf hdr col batch))
          else d)
        st3.non_null_counts }

/-- The structural parse stage of one batch.  PyArrow's
`invalid_row_handler` fires only for records with a wrong number of
columns; it receives the record's physical row number and text, and since
the handler in converter.py returns `"error"`, the first such record aborts
the read.  Typed-conversion failures never reach this handler. -/
def firstStructural (hdr : List String) :
    List RawRow → ℕ → Option (ℕ × RawRow)
  | [], _ => Option.none
  | r :: rs, n =>
    if r.length ≠ hdr.length then some (n, r)
    else firstStructural hdr rs (n + 1)

/-- The typed-conversion stage of one batch (records already structurally
valid): `none` when some value fails its declared typed conversion and is
not a null token.  The resulting `ArrowInvalid` carries no row number or
raw text — `invalid_rows` stays empty for such failures. -/
def parseBatchAll (cfg : FileTypeConfig) (hdr : List String) :
    List RawRow → Option (List ParsedRow)
  | [] => some []
  | r :: rs =>
    match parseRow cfg hdr r, parseBatchAll cfg hdr rs with
    | some pr, some prs => some (pr :: prs)
    | _, _ => Option.none

/-- The batch loop of `_stream_csv_to_parquet`: read `bsz` records at a
time, run the structural parse stage (whose invalid-row handler collects
the offending record's physical row number and truncated raw text and
aborts — the header is physical row 1, so data record `i` is physical row
`i + 2`), then the typed-conversion stage (whose failure aborts with no row
information, matching converter.py building `CSVParseError` with
`line_number=None` and `problematic_value=None` when `invalid_rows` is
empty), then write the batch and accumulate stats.  The loop consumes at
least one record per step, so the explicit fuel (seeded with more than the
record count) never runs out; it only makes the recursion structural. -/
def streamGo (cfg : FileTypeConfig) (hdr : List String) (bsz : ℕ) :
    ℕ → List RawRow → StreamingStats → List ParsedRow → ℕ →
    Except PyErr (StreamingStats × List ParsedRow)
  | _, [], st, acc, _ => .ok (st, acc)
  | 0, _ :: _, st, acc, _ => .ok (st, acc)
  | f + 1, r :: rs, st, acc, rowNum =>
    let batch := (r :: rs).take bsz
    match firstStructural hdr batch rowNum with
    | some e =>
      .error (.dime (.csvParseError pyarrowErrMsg (some e.1) Option.none
        (some (truncate500 (rawText e.2)))))
    | Option.none =>
      match parseBatchAll cfg hdr batch with
      | Option.none =>
        .error (.dime (.csvParseError pyarrowErrMsg Option.none Option.none
          Option.none))
      | some pb =>
        streamGo cfg hdr bsz f ((r :: rs).drop bsz) (processBatch cfg hdr st pb)
          (acc ++ pb) (rowNum + batch.length)

/-- `_stream_csv_to_parquet`: stream the data records (header excluded) to
the output in batches, returning the accumulated stats and the written
rows. -/
def streamCsvToParquet (cfg : FileTypeConfig) (hdr : List String)
    (rows : List RawRow) (bsz : ℕ) :
    Except PyErr (StreamingStats × List ParsedRow) :=
  streamGo cfg hdr bsz (rows.length + 1) rows (initStats cfg) [] 2

/-! ## Schema validation (converter.py `_validate_schema`) -/

/-- `_validate_schema`: the realized column-name set must equal the expected
column set exactly. -/
def validate_schema (actual_columns : List String) (cfg : FileTypeConfig) :
    Except PyErr Unit :=
  if actual_columns.toFinset ≠ cfg.expected_columns.toFinset then
    .error (.dime (.schemaValidation cfg.expected_columns actual_columns))
  else .ok ()

/-- The missing-columns list of `SchemaValidationError.__str__`
(`sorted(expected - actual)`). -/
def schemaErrMissing (expected actual : List String) : List String :=
  ((expected.filter (fun c => c ∉ actual)).dedup).insertionSort (fun a b => a ≤ b)

/-- The extra-columns list of `SchemaValidationError.__str__`
(`sorted(actual - expected)`). -/
def schemaErrExtra (expected actual : List String) : List String :=
  ((actual.filter (fun c => c ∉ expected)).dedup).insertionSort (fun a b => a ≤ b)

/-- Wrapper matching the call site `_validate_schema(path, stats.schema,
config)`: a still-unset schema (`None`) makes `schema.names` raise
`AttributeError`. -/
def validate_schema_opt (schema : Option (List String))
    (cfg : FileTypeConfig) : Except PyErr Unit :=
  match schema with
  | none => .error .attributeError
  | some names => validate_schema names cfg

/-! ## Three-tier validation suite (validators.py) -/

/-- `ValidationResult` (validators.py), with the Python field defaults. -/
structure ValidationResult : Type where
  row_count_valid : Bool := false
  row_count_expected : ℕ := 0
  row_count_actual : ℕ := 0
  checksum_valid : Bool := false
  sum_column_name : Option String := none
  sum_column_expected : FloatV := .fin (intQ 0)
  sum_column_actual : FloatV := .fin (intQ 0)
  non_null_counts : List (String × ℕ × ℕ) := []
  sample_valid : Bool := false
  sample_size : ℕ := 0
deriving DecidableEq

/-- `ValidationResult.all_valid`. -/
def allValid (r : ValidationResult) : Bool :=
  r.row_count_valid && r.checksum_valid && r.sample_valid

/-- Tier 1, `validate_row_count`: output row count (parquet metadata) must
equal the pre-flight expected count. -/
def validate_row_count (outLen expected : ℕ) : Except PyErr ValidationResult :=
  let result : ValidationResult :=
    { row_count_expected := expected, row_count_actual := outLen }
  if outLen ≠ expected then
    .error (.dime (.rowCountMismatch expected outLen))
  else .ok { result with row_count_valid := true }

/-- The non-null-count loop of `validate_checksums`: per key column, read
only that column from the output and compare its non-null count against the
streaming count (`stats.non_null_counts.get(col, 0)`).  A key column absent
from the output schema would raise `KeyError` from the column read. -/
def checksumKeyLoop (hdr : List String) (outRows : List ParsedRow)
    (stats : StreamingStats) :
    List String → ValidationResult → Except PyErr ValidationResult
  | [], result => .ok { result with checksum_valid := true }
  | col :: rest, result =>
    match colIdx col hdr with
    | Option.none => .error .keyError
    | some i =>
      let source_count := lookupD stats.non_null_counts col
      let parquet_count := nonNullCount (outRows.map (fun r => (r.get? i).join))
      let result :=
        { result with
          non_null_counts := result.non_null_counts ++ [(col, source_count, parquet_count)] }
      if source_count ≠ parquet_count then
        .error (.dime (.checksumMismatch
          ("Non-null count mismatch for " ++ col) col
          (.n source_count) (.n parquet_count)))
      else checksumKeyLoop hdr outRows stats rest result

/-- Tier 2, `validate_checksums`: when a sum column is configured, the
output-recomputed sum must be within absolute 0.01 of the streaming sum
(`abs(source_sum - parquet_sum) > 0.01` raises; NaN comparisons are False
in Python); then every key column's non-null count must match exactly. -/
def validate_checksums (hdr : List String) (outRows : List ParsedRow)
    (stats : StreamingStats) (result : ValidationResult)
    (sum_column : Option String) (key_columns : Option (List String)) :
    Except PyErr ValidationResult :=
  let key_cols := key_columns.getD
    ["transaction.id", "bonica.cid", "contributor.name", "amount"]
  let result := { result with sum_column_name := sum_column }
  match sum_column with
  | some c =>
    match colIdx c hdr with
    | Option.none => .error .keyError
    | some i =>
      let source_sum := stats.sum_column_value
      let parquet_sum :=
        (sumFloat (outRows.map (fun r => (r.get? i).join))).getD (.fin (intQ 0))
      let result :=
        { result with
          sum_column_expected := source_sum
          sum_column_actual := parquet_sum }
      if subAbsGtTol source_sum parquet_sum (mkQ 1 100) then
        .error (.dime (.checksumMismatch (c ++ " sum mismatch") c
          (.f source_sum) (.f parquet_sum)))
      else checksumKeyLoop hdr outRows stats key_cols result
  | none => checksumKeyLoop hdr outRows stats key_cols result

/-! ## Tier 3 value normalization and comparison (validators.py) -/

/-- A Python value flowing through the sample comparison: `None`, a string
(from the CSV `DictReader`), or an int/float (from parquet `as_py()`). -/
inductive PyVal : Type
  | none
  | str (s : String)
  | int (z : ℤ)
  | float (v : FloatV)
deriving DecidableEq

/-- Python `round(q, 6)` on an exact value: half-to-even at six decimals. -/
def round6 (q : MRat) : MRat :=
  let x := mkQ (q.num * 1000000) q.den
  let f : ℤ := Int.fdiv x.num (x.den : ℤ)
  let frac := subQ x (intQ f)
  let half := mkQ 1 2
  let r : ℤ :=
    if bltQ frac half then f
    else if bltQ half frac then f + 1
    else if f % 2 = 0 then f else f + 1
  mkQ r 1000000

/-- `_normalize_value`: `None`, the empty string, the literal `\\N` token,
float NaN, and strings that strip to `nan` (case-insensitive) all become the
canonical null (`None`); finite floats are rounded to six decimals; strings
are stripped; ints pass through. -/
def normalize_value : PyVal → PyVal
  | .none => .none
  | .str s =>
    if s = "" ∨ s = "\\N" then .none
    else
      let t := trimStr s
      if lowerStr t = "nan" then .none else .str t
  | .int z => .int z
  | .float .nan => .none
  | .float (.fin q) => .float (.fin (round6 q))

/-- `float(v)` as attempted inside `_values_equal`: identity on numbers,
string parsing on strings (a `ValueError` is `none`). -/
def toNumF : PyVal → Option FloatV
  | .str s => parseFloatV s
  | .int z => some (.fin (intQ z))
  | .float v => some v
  | .none => Option.none

/-- `str(v)` as used for the string-comparison fallback and the error
payload.  Numeric reprs only need to be injective for the model. -/
def strOfPy : PyVal → String
  | .none => "None"
  | .str s => s
  | .int z => toString z
  | .float .nan => "nan"
  | .float (.fin q) => toString q.num ++ (if q.den = 1 then "" else "/" ++ toString q.den)

/-- `_values_equal` on normalized values: nulls are equal only to nulls;
when both sides convert to floats they are compared with a strict absolute
tolerance of `1e-6` (a NaN operand makes the comparison False); otherwise
the string forms are compared. -/
def values_equal (a b : PyVal) : Bool :=
  match a, b with
  | .none, .none => true
  | .none, _ => false
  | _, .none => false
  | _, _ =>
    match toNumF a, toNumF b with
    | some x, some y =>
      match x, y with
      | .fin p, .fin q => bltQ (absQ (subQ p q)) (mkQ 1 1000000)
      | _, _ => false
    | _, _ => strOfPy a = strOfPy b

/-! ## Tier 3 sample validation (validators.py `validate_sample_rows`)

The randomly drawn `sample_indices` are an explicit argument here: the model
is parametric in the oracle that `random.sample` provides. -/

/-- The source-side cell for a column position, as the CSV `DictReader`
yields it (missing trailing fields read as `None`).  Header names are
assumed distinct, so the dict lookup by name coincides with the positional
read. -/
def srcCellPy (srcRow : RawRow) (i : ℕ) : PyVal :=
  match srcRow.get? i with
  | some s => .str s
  | Option.none => .none

/-- The output-side cell: `row_dict[col]` via `as_py()` when the row was
captured, `None` otherwise (`parquet_row.get(col) if parquet_row else
None`). -/
def outCellPy (outRow : Option ParsedRow) (i : ℕ) : PyVal :=
  match outRow with
  | some r =>
    match (r.get? i).join with
    | some (.int z) => .int z
    | some (.float v) => .float v
    | some (.str s) => .str s
    | Option.none => .none
  | Option.none => .none

/-- The per-column inner loop: normalize both sides and compare; the first
mismatch raises `SampleMismatchError{row_index, column, expected, actual}`
with the stringified normalized values. -/
def compareCols (srcRow : RawRow) (outRow : Option ParsedRow) (rowIdx : ℕ) :
    List (ℕ × String) → Except PyErr Unit
  | [] => .ok ()
  | (i, col) :: rest =>
    let sn := normalize_value (srcCellPy srcRow i)
    let pn := normalize_value (outCellPy outRow i)
    if values_equal sn pn then compareCols srcRow outRow rowIdx rest
    else .error (.dime (.sampleMismatch rowIdx col (strOfPy sn) (strOfPy pn)))

/-- The per-sampled-row outer loop.  A sampled index beyond the source row
count leaves the pre-allocated slot as `None`, and `None.get(col)` raises
`AttributeError`. -/
def sampleLoop (hdr : List String) (srcRows : List RawRow)
    (outRows : List ParsedRow) :
    List ℕ → ValidationResult → Except PyErr ValidationResult
  | [], result => .ok { result with sample_valid := true }
  | idx :: rest, result =>
    match srcRows.get? idx with
    | Option.none => .error .attributeError
    | some srow =>
      match compareCols srow (outRows.get? idx) idx hdr.enum with
      | .error e => .error e
      | .ok _ => sampleLoop hdr srcRows outRows rest result

/-- Tier 3, `validate_sample_rows`: records the achieved sample size, then
compares every sampled row column-by-column, failing on the first
mismatch. -/
def validate_sample_rows (hdr : List String) (srcRows : List RawRow)
    (outRows : List ParsedRow) (sampleIndices : List ℕ)
    (result : ValidationResult) : Except PyErr ValidationResult :=
  sampleLoop hdr srcRows outRows sampleIndices
    { result with sample_size := sampleIndices.length }

/-! ## The tier sequence and `convert_dime_file` (converter.py) -/

/-- One of the three validation tiers. -/
inductive Tier : Type
  | rowCount
  | checksums
  | sample
deriving DecidableEq

/-- The validation phase of `convert_dime_file` (its lines under
`if validate:`): Tier 1, then Tier 2, then Tier 3, each raising immediately
on failure.  The second component records exactly the tiers that were
invoked, in order. -/
def run_validation (cfg : FileTypeConfig) (hdr : List String)
    (srcRows : List RawRow) (outRows : List ParsedRow)
    (stats : StreamingStats) (expected : ℕ) (sampleIndices : List ℕ) :
    Except PyErr ValidationResult × List Tier :=
  match validate_row_count outRows.length expected with
  | .error e => (.error e, [.rowCount])
  | .ok r1 =>
    match validate_checksums hdr outRows stats r1 cfg.sum_column
        (some cfg.key_columns) with
    | .error e => (.error e, [.rowCount, .checksums])
    | .ok r2 =>
      match validate_sample_rows hdr srcRows outRows sampleIndices r2 with
      | .error e => (.error e, [.rowCount, .checksums, .sample])
      | .ok r3 => (.ok r3, [.rowCount, .checksums, .sample])

/-- `ConversionResult` (paths dropped). -/
structure ConversionResult : Type where
  row_count : ℕ
  validation : ValidationResult
deriving DecidableEq

/-- `convert_dime_file`: pre-flight row count, streaming conversion, schema
validation, then the optional three-tier validation.  `sampleIndices` is
the oracle for Tier 3's random sample. -/
def convert_dime_file (source : Source) (cfg : FileTypeConfig)
    (validate : Bool) (sampleIndices : List ℕ) (batch_size : ℕ) :
    Except PyErr ConversionResult :=
  match count_csv_rows source with
  | .error e => .error e
  | .ok expected =>
    match source with
    | .unreadable => .error .osError
    | .content [] => .error .stopIteration
    | .content (hdr :: rows) =>
      match streamCsvToParquet cfg hdr rows batch_size with
      | .error e => .error e
      | .ok (stats, outRows) =>
        match validate_schema_opt stats.schema cfg with
        | .error e => .error e
        | .ok _ =>
          if validate then
            match (run_validation cfg hdr rows outRows stats expected
                sampleIndices).1 with
            | .error e => .error e
            | .ok vr => .ok { row_count := stats.row_count, validation := vr }
          else .ok { row_count := stats.row_count, validation := {} }

/-! ## Concrete file-type configurations (schema.py)

`DIME_CONTRIBUTIONS_SCHEMA` transcribed: ids, codes and text fields are
declared strings (leading zeros must survive), `cycle` and the
excluded-from-scaling flag are 32-bit ints, the money and score columns are
doubles. -/

def DIME_CONTRIBUTIONS_SCHEMA : List (String × ColType) :=
  [("cycle", .int), ("excluded.from.scaling", .int),
   ("amount", .float), ("gis.confidence", .float),
   ("contributor.cfscore", .float), ("candidate.cfscore", .float),
   ("transaction.id", .str), ("transaction.type", .str), ("date", .str),
   ("bonica.cid", .str), ("contributor.name", .str),
   ("contributor.lname", .str), ("contributor.fname", .str),
   ("contributor.mname", .str), ("contributor.suffix", .str),
   ("contributor.title", .str), ("contributor.ffname", .str),
   ("contributor.type", .str), ("contributor.gender", .str),
   ("contributor.address", .str), ("contributor.city", .str),
   ("contributor.state", .str), ("contributor.zipcode", .str),
   ("contributor.occupation", .str), ("contributor.employer", .str),
   ("occ.standardized", .str), ("is.corp", .str), ("recipient.name", .str),
   ("bonica.rid", .str), ("recipient.party", .str), ("recipient.type", .str),
   ("recipient.state", .str), ("seat", .str), ("election.type", .str),
   ("latitude", .str), ("longitude", .str), ("contributor.district", .str),
   ("censustract", .str), ("efec.memo", .str), ("efec.memo2", .str),
   ("efec.transaction.id.orig", .str), ("bk.ref.transaction.id", .str),
   ("efec.org.orig", .str), ("efec.comid.orig", .str),
   ("efec.form.type", .str)]

/-- `FILE_TYPE_CONFIGS[FileType.CONTRIBUTIONS]`. -/
def CONTRIBUTIONS_CONFIG : FileTypeConfig :=
  { schema := DIME_CONTRIBUTIONS_SCHEMA
    expected_columns := DIME_CONTRIBUTIONS_SCHEMA.map (fun p => p.1)
    sum_column := some "amount"
    key_columns := ["transaction.id", "bonica.cid", "contributor.name", "amount"] }

/-! ## Aggregation variant (scripts/distinct_legislators)

`extractor.py` reads the Voteview members parquet through DuckDB, filters to
`congress >= min_congress AND bioguide_id IS NOT NULL`, groups by
`bioguide_id` and writes one output row per legislator.  The DuckDB
relational engine is embedded as list operations. -/

/-- One row of the Voteview `HSall_members` source (the columns the
aggregation query touches). -/
structure VoteviewRow : Type where
  bioguide_id : Option String
  congress : ℤ
  bioname : String
  state_abbrev : String
deriving DecidableEq

/-- One output row of `AGGREGATION_QUERY` (schema.py of the extractor). -/
structure LegislatorRow : Type where
  bioguide_id : String
  bioname : String
  state_abbrev : String
  congresses_served : List ℤ
  first_congress : ℤ
  last_congress : ℤ
deriving DecidableEq

/-- The `WHERE congress >= {min_congress} AND bioguide_id IS NOT NULL`
filter shared by the query and every validation tier. -/
def dlFiltered (src : List VoteviewRow) (minC : ℤ) : List VoteviewRow :=
  src.filter (fun r => minC ≤ r.congress ∧ r.bioguide_id.isSome)

/-- `SELECT DISTINCT bioguide_id` over the filtered source. -/
def dlDistinctIds (src : List VoteviewRow) (minC : ℤ) : List String :=
  ((dlFiltered src minC).filterMap (fun r => r.bioguide_id)).dedup

/-- The rows of one legislator's group, ordered by `congress` (stable). -/
def dlGroup (src : List VoteviewRow) (minC : ℤ) (id : String) :
    List VoteviewRow :=
  ((dlFiltered src minC).filter (fun r => r.bioguide_id = some id)).insertionSort
    (fun a b => a.congress ≤ b.congress)

/-- `AGGREGATION_QUERY`: one row per distinct `bioguide_id`, with
`LAST(... ORDER BY congress)` fields from the latest-congress row,
`LIST(congress ORDER BY congress)`, `MIN(congress)` and `MAX(congress)`,
ordered by `bioguide_id`. -/
def aggregateLegislators (src : List VoteviewRow) (minC : ℤ) :
    List LegislatorRow :=
  ((dlDistinctIds src minC).insertionSort (fun a b => a ≤ b)).map (fun id =>
    let g := dlGroup src minC id
    let congresses := g.map (fun r => r.congress)
    { bioguide_id := id
      bioname := ((g.getLast?).map (fun r => r.bioname)).getD ""
      state_abbrev := ((g.getLast?).map (fun r => r.state_abbrev)).getD ""
      congresses_served := congresses
      first_congress := (congresses.head?).getD 0
      last_congress := (congresses.getLast?).getD 0 })

/-- `ValidationResult` of distinct_legislators/validators.py. -/
structure DLValidationResult : Type where
  completeness_valid : Bool := false
  source_distinct_count : ℕ := 0
  output_count : ℕ := 0
  aggregation_valid : Bool := false
  aggregation_checks_passed : ℕ := 0
  sample_valid : Bool := false
  sample_size : ℕ := 0
deriving DecidableEq

/-- The extractor's error taxonomy (distinct_legislators/exceptions.py)
together with Python's `TypeError` for a call with missing required
positional arguments. -/
inductive DLErr : Type
  | typeError
  | completeness (expected_count actual_count : ℕ)
      (missing_ids extra_ids : Option (List String))
  | aggregation (bioguide_id field_name expected_value actual_value : String)
  | sampleValidation (bioguide_id field_name expected_value actual_value : String)
      (sample_index : ℕ)
  | sourceRead
  | outputWrite
deriving DecidableEq

/-- Tier marker for the aggregation-variant validators. -/
inductive DLTier : Type
  | completeness
  | aggregation
  | sample
deriving DecidableEq

/-- `validate_completeness` (distinct_legislators/validators.py), the
four-parameter function as defined: duplicate output keys raise
`CompletenessError` with the counts; a count mismatch raises
`CompletenessError` carrying up to 10 example missing and extra keys
(`LIMIT 10`, `None` when the example list is empty). -/
def validate_completeness (src : List VoteviewRow)
    (output : List LegislatorRow) (minC : ℤ) :
    Except DLErr DLValidationResult :=
  let source_count := (dlDistinctIds src minC).length
  let output_count := output.length
  let outIds := output.map (fun r => r.bioguide_id)
  let duplicate_count := (outIds.dedup.filter
    (fun id => 1 < (outIds.filter (fun j => j = id)).length)).length
  if 0 < duplicate_count then
    .error (.completeness source_count output_count Option.none Option.none)
  else if output_count ≠ source_count then
    let missing := ((dlDistinctIds src minC).filter
      (fun id => id ∉ outIds)).take 10
    let extra := (outIds.filter
      (fun id => id ∉ dlDistinctIds src minC)).take 10
    .error (.completeness source_count output_count
      (if missing = [] then Option.none else some missing)
      (if extra = [] then Option.none else some extra))
  else
    .ok { completeness_valid := true
          source_distinct_count := source_count
          output_count := output_count }

/-- Number of parameters of `validate_completeness` that have no default
(`source_url`, `output_path`, `conn`, `min_congress`). -/
def validate_completeness_required_args : ℕ := 4

/-- Number of arguments supplied at the call site
`validate_completeness(source_url, output_path, conn)` in
extractor.py line 121. -/
def extractor_completeness_call_args : ℕ := 3

/-- `ExtractionResult` (paths and URLs dropped). -/
structure DLExtractionResult : Type where
  source_rows : ℕ
  output_count : ℕ
  validation : DLValidationResult
deriving DecidableEq

/-- `extract_distinct_legislators`: count the filtered source, run the
aggregation query, write the output, then (when requested) run the tiers.
Python checks call arity at each call: the Tier 1 call supplies 3 of the 4
required positional arguments, so it raises `TypeError` before
`validate_completeness` begins executing.  The second component records the
tiers whose bodies actually ran. -/
def extract_distinct_legislators (src : List VoteviewRow) (minC : ℤ)
    (validate : Bool) : Except DLErr DLExtractionResult × List DLTier :=
  let source_rows := (dlFiltered src minC).length
  let output := aggregateLegislators src minC
  let output_count := output.length
  if validate then
    if extractor_completeness_call_args < validate_completeness_required_args then
      (.error .typeError, [])
    else
      match validate_completeness src output minC with
      | .error e => (.error e, [.completeness])
      | .ok v1 =>
        (.ok { source_rows := source_rows, output_count := output_count
               validation := v1 }, [.completeness])
  else
    (.ok { source_rows := source_rows, output_count := output_count
           validation := {} }, [])

/-! ## Helper observations used by the theorems -/

/-- Whether a validator call returned normally. -/
def exceptIsOk : Except PyErr ValidationResult → Bool
  | .ok _ => true
  | .error _ => false

/-- The output-recomputed non-null count for a column. -/
def outColCount (hdr : List String) (outRows : List ParsedRow) (col : String) :
    ℕ :=
  nonNullCount (columnOf hdr col outRows)

/-- The mismatching columns of one sampled row, in column order, each with
the two normalized values. -/
def rowMismatches (srcRow : RawRow) (outRow : Option ParsedRow) :
    List (ℕ × String) → List (String × PyVal × PyVal)
  | [] => []
  | (i, col) :: rest =>
    let sn := normalize_value (srcCellPy srcRow i)
    let pn := normalize_value (outCellPy outRow i)
    if values_equal sn pn then rowMismatches srcRow outRow rest
    else (col, sn, pn) :: rowMismatches srcRow outRow rest

/-- All sample mismatches in iteration order (sampled rows outer, columns
inner), tagged with the sampled row index. -/
def sampleMismatches (hdr : List String) (srcRows : List RawRow)
    (outRows : List ParsedRow) : List ℕ → List (ℕ × String × PyVal × PyVal)
  | [] => []
  | idx :: rest =>
    (rowMismatches ((srcRows.get? idx).getD []) (outRows.get? idx)
        hdr.enum).map (fun m => (idx, m)) ++
      sampleMismatches hdr srcRows outRows rest

/-! ## Concrete fixtures for scenario evaluations -/

/-- A two-column test configuration: a string id and a float amount. -/
def testConfig : FileTypeConfig :=
  { schema := [("id", .str), ("amount", .float)]
    expected_columns := ["id", "amount"]
    sum_column := some "amount"
    key_columns := ["id", "amount"] }

/-- A one-column configuration matching Scenario A of the spec: `amount` is
the checksum column and also tracked as a key column. -/
def amountConfig : FileTypeConfig :=
  { schema := [("amount", .float)]
    expected_columns := ["amount"]
    sum_column := some "amount"
    key_columns := ["amount"] }

/-- Scenario A source: five records with values 10.0, 20.0, null, 5.5, 100. -/
def scenarioARows : List RawRow :=
  [["10.0"], ["20.0"], ["\\N"], ["5.5"], ["100"]]

/-- Scenario A parquet content after conversion. -/
def scenarioAOut : List ParsedRow :=
  [[some (.float (.fin (intQ 10)))], [some (.float (.fin (intQ 20)))], [Option.none],
   [some (.float (.fin (mkQ 11 2)))], [some (.float (.fin (intQ 100)))]]

/-- A batch used to exercise the per-batch accumulation: one 4.0 and one
null. -/
def batchW : List ParsedRow := [[some (.float (.fin (intQ 4)))], [Option.none]]

/-- Prior stats used to exercise the per-batch accumulation. -/
def statsW : StreamingStats :=
  { row_count := 3
    sum_column_value := .fin (intQ 1)
    non_null_counts := [("amount", 2)]
    schema := some ["amount"] }

/-- Tier 2 fixture: one converted row matching its streaming stats. -/
def outC3 : List ParsedRow := [[some (.str "a"), some (.float (.fin (intQ 10)))]]

/-- Tier 2 fixture: the streaming stats accumulated for `outC3`. -/
def statsC3 : StreamingStats :=
  { row_count := 1
    sum_column_value := .fin (intQ 10)
    non_null_counts := [("id", 1), ("amount", 1)]
    schema := some ["id", "amount"] }

/-- Tier 2 failure fixture: a streaming sum of 99 against an output whose
recomputed sum is 10. -/
def statsBadSum : StreamingStats :=
  { row_count := 1
    sum_column_value := .fin (intQ 99)
    non_null_counts := [("id", 1), ("amount", 1)]
    schema := some ["id", "amount"] }

/-- Tier 3 failure fixture: an output row whose id cell reads `b` where the
source says `a`. -/
def outB : List ParsedRow := [[some (.str "b"), some (.float (.fin (intQ 10)))]]

/-- The Tier 1 result produced for a matching one-row output against an
expected count of 1. -/
def r1W : ValidationResult :=
  { row_count_valid := true
    row_count_expected := 1
    row_count_actual := 1 }

/-- The Tier 2 result produced from `r1W` when `outB` matches `statsC3`. -/
def r2W : ValidationResult :=
  { row_count_valid := true
    row_count_expected := 1
    row_count_actual := 1
    checksum_valid := true
    sum_column_name := some "amount"
    sum_column_expected := .fin (intQ 10)
    sum_column_actual := .fin (intQ 10)
    non_null_counts := [("id", 1, 1), ("amount", 1, 1)] }

/-! # Theorems -/

/-- C10: a completely empty source (no header record) makes the unguarded
header skip in `_count_csv_rows` raise `StopIteration`, so
`convert_dime_file` fails with an untyped `StopIteration` that is outside
the documented error taxonomy; every non-empty source yields the number of
data records excluding the header. -/
theorem c10_empty_source_stopiteration :
    (∀ (cfg : FileTypeConfig) (validate : Bool) (idxs : List ℕ) (bsz : ℕ),
      convert_dime_file (.content []) cfg validate idxs bsz =
        .error .stopIteration) ∧
    isDimeErr .stopIteration = false ∧
    (∀ (hdr : List String) (rows : List RawRow),
      count_csv_rows (.content (hdr :: rows)) = .ok rows.length) := by
  refine ⟨fun cfg validate idxs bsz => rfl, rfl, fun hdr rows => rfl⟩

/-- C8 (counterexample): on an unreadable source the conversion fails with
the untyped `OSError` propagated from `gzip.open`, which is not any typed
error of the converter's taxonomy — in particular the taxonomy contains no
`SourceUnreadable` error. -/
theorem c8_counterexample :
    convert_dime_file .unreadable CONTRIBUTIONS_CONFIG true [] 100000 =
      .error .osError ∧
    isDimeErr .osError = false := ⟨rfl, rfl⟩

/-- C8 (amended): every unreadable source makes the conversion fail
immediately, without retry, with the untyped OS error propagated from the
pre-flight row counter's `gzip.open`. -/
theorem c8_amended_unreadable_source (cfg : FileTypeConfig) (validate : Bool)
    (idxs : List ℕ) (bsz : ℕ) :
    convert_dime_file .unreadable cfg validate idxs bsz = .error .osError :=
  rfl

/-- C5: with validation enabled, `extract_distinct_legislators` never runs
the Tier 1 completeness check: the call site supplies 3 of the 4 required
positional arguments of `validate_completeness`, so Python raises an
untyped `TypeError` before the completeness check begins, on every input. -/
theorem c5_extractor_tier1_typeerror (src : List VoteviewRow) (minC : ℤ) :
    (extract_distinct_legislators src minC true).1 = .error DLErr.typeError ∧
    (extract_distinct_legislators src minC true).2 = [] ∧
    extractor_completeness_call_args < validate_completeness_required_args := by
  refine ⟨rfl, rfl, by decide⟩

/-- Reading back a key after a dict-add: the added count lands on the added
key and nothing else moves. -/
lemma lookupD_dictAdd (d : List (String × ℕ)) (k x : String) (n : ℕ) :
    lookupD (dictAdd d k n) x = lookupD d x + (if x = k then n else 0) := by
  induction d with
  | nil =>
    by_cases h : x = k
    · subst h; simp [dictAdd, lookupD]
    · have h' : ¬ k = x := fun hh => h hh.symm
      simp [dictAdd, lookupD, h, h']
  | cons p rest ih =>
    obtain ⟨k', v⟩ := p
    by_cases hk : k' = k
    · subst hk
      by_cases hx : k' = x
      · subst hx
        simp [dictAdd, lookupD]
      · have hx' : ¬ x = k' := fun hh => hx hh.symm
        simp [dictAdd, lookupD, hx, hx']
    · by_cases hx : k' = x
      · subst hx
        simp [dictAdd, lookupD, hk]
      · simp [dictAdd, lookupD, hk, hx, ih]

/-- Reading back a key after the key-column fold of `processBatch`. -/
lemma lookupD_keyfold (hdr : List String) (f : String → ℕ) (x : String) :
    ∀ (keys : List String) (d : List (String × ℕ)), keys.Nodup →
      lookupD (keys.foldl
          (fun d col => if col ∈ hdr then dictAdd d col (f col) else d) d) x =
        lookupD d x + (if x ∈ keys ∧ x ∈ hdr then f x else 0) := by
  intro keys
  induction keys with
  | nil => intro d _; simp
  | cons k rest ih =>
    intro d hnd
    have hk : k ∉ rest := (List.nodup_cons.mp hnd).1
    have hrest : rest.Nodup := (List.nodup_cons.mp hnd).2
    simp only [List.foldl_cons]
    rw [ih _ hrest]
    by_cases hxk : x = k
    · subst hxk
      have hxr : x ∉ rest := hk
      by_cases hxh : x ∈ hdr
      · simp [hxh, hxr, lookupD_dictAdd]
      · simp [hxh, hxr]
    · by_cases hkh : k ∈ hdr
      · by_cases hxr : x ∈ rest <;> simp [hkh, lookupD_dictAdd, hxk, hxr]
      · simp [hkh, hxk]

/-- C6: after streaming Scenario A (five records, checksum column `amount`
holding 10.0, 20.0, null, 5.5, 100, batch size 2) the accumulated stats are
`row_count = 5`, `checksum_sum = 135.5` (nulls excluded) and a non-null
count of 4 for `amount`.  In general each batch adds its record count to
`row_count`, its null-excluded checksum-column sum to the checksum
accumulator (no update when the batch sum is null, i.e. on an all-null
batch), and each key column's non-null count to `non_null_counts`. -/
theorem c6_streaming_stats_accumulation :
    (streamCsvToParquet amountConfig ["amount"] scenarioARows 2 =
      .ok ({ row_count := 5, sum_column_value := .fin (mkQ 271 2),
             non_null_counts := [("amount", 4)], schema := some ["amount"] },
           scenarioAOut)) ∧
    (∀ (cfg : FileTypeConfig) (hdr : List String) (c : String)
        (st : StreamingStats) (batch : List ParsedRow),
      cfg.sum_column = some c → c ∈ hdr → cfg.key_columns.Nodup →
      (processBatch cfg hdr st batch).row_count = st.row_count + batch.length ∧
      (∀ v, sumFloat (columnOf hdr c batch) = some v →
        (processBatch cfg hdr st batch).sum_column_value =
          addF st.sum_column_value v) ∧
      (sumFloat (columnOf hdr c batch) = Option.none →
        (processBatch cfg hdr st batch).sum_column_value =
          st.sum_column_value) ∧
      (∀ col, lookupD (processBatch cfg hdr st batch).non_null_counts col =
        lookupD st.non_null_counts col +
          (if col ∈ cfg.key_columns ∧ col ∈ hdr
           then nonNullCount (columnOf hdr col batch) else 0))) := by
  constructor
  · decide
  · intro cfg hdr c st batch hsum hc hnodup
    obtain ⟨rc, sv, nn, sch⟩ := st
    refine ⟨?_, ?_, ?_, ?_⟩
    · cases sch <;> cases hv : sumFloat (columnOf hdr c batch) <;>
        simp [processBatch, hsum, hc, hv]
    · intro v hv
      cases sch <;> simp [processBatch, hsum, hc, hv]
    · intro hv
      cases sch <;> simp [processBatch, hsum, hc, hv]
    · intro col
      cases sch <;> cases hv : sumFloat (columnOf hdr c batch) <;>
        simp [processBatch, hsum, hc, hv,
          lookupD_keyfold hdr _ col _ _ hnodup]

/-- Witness for C6 at a concrete batch: one 4.0 and one null arriving on
prior stats (3 rows, sum 1, count 2). -/
theorem c6_witness :
    (processBatch amountConfig ["amount"] statsW batchW).row_count = 3 + 2 ∧
    (processBatch amountConfig ["amount"] statsW batchW).sum_column_value =
      addF (FloatV.fin (intQ 1)) (.fin (intQ 4)) ∧
    lookupD (processBatch amountConfig ["amount"] statsW
        batchW).non_null_counts "amount" =
      lookupD statsW.non_null_counts "amount" +
        (if "amount" ∈ amountConfig.key_columns ∧ "amount" ∈ ["amount"]
         then nonNullCount (columnOf ["amount"] "amount" batchW) else 0) := by
  have h := c6_streaming_stats_accumulation.2 amountConfig ["amount"] "amount"
    statsW batchW rfl (by decide) (by decide)
  exact ⟨h.1, by rw [h.2.1 (.fin (intQ 4)) (by decide)]; rfl, h.2.2.2 "amount"⟩

/-- C2: the validation phase runs the tiers strictly in the order row count,
checksums, sample — the invoked-tier trace is always a prefix of that
sequence — and a failure at any tier raises immediately so that the later
tiers never execute: a Tier 1 row-count mismatch raises
`RowCountMismatchError` with neither the checksum validation nor the sample
validation ever invoked, a Tier 2 checksum failure raises with the sample
validation never invoked, and a Tier 3 failure raises as the overall
result. -/
theorem c2_tiers_fail_fast (cfg : FileTypeConfig) (hdr : List String)
    (srcRows : List RawRow) (outRows : List ParsedRow)
    (stats : StreamingStats) (expected : ℕ) (idxs : List ℕ) :
    ((run_validation cfg hdr srcRows outRows stats expected idxs).2 =
        [Tier.rowCount] ∨
     (run_validation cfg hdr srcRows outRows stats expected idxs).2 =
        [Tier.rowCount, Tier.checksums] ∨
     (run_validation cfg hdr srcRows outRows stats expected idxs).2 =
        [Tier.rowCount, Tier.checksums, Tier.sample]) ∧
    (outRows.length ≠ expected →
      (run_validation cfg hdr srcRows outRows stats expected idxs).1 =
        .error (.dime (.rowCountMismatch expected outRows.length)) ∧
      (run_validation cfg hdr srcRows outRows stats expected idxs).2 =
        [Tier.rowCount] ∧
      Tier.checksums ∉
        (run_validation cfg hdr srcRows outRows stats expected idxs).2 ∧
      Tier.sample ∉
        (run_validation cfg hdr srcRows outRows stats expected idxs).2) ∧
    (∀ (r1 : ValidationResult) (e : PyErr),
      validate_row_count outRows.length expected = .ok r1 →
      validate_checksums hdr outRows stats r1 cfg.sum_column
          (some cfg.key_columns) = .error e →
      (run_validation cfg hdr srcRows outRows stats expected idxs).1 =
        .error e ∧
      (run_validation cfg hdr srcRows outRows stats expected idxs).2 =
        [Tier.rowCount, Tier.checksums] ∧
      Tier.sample ∉
        (run_validation cfg hdr srcRows outRows stats expected idxs).2) ∧
    (∀ (r1 r2 : ValidationResult) (e : PyErr),
      validate_row_count outRows.length expected = .ok r1 →
      validate_checksums hdr outRows stats r1 cfg.sum_column
          (some cfg.key_columns) = .ok r2 →
      validate_sample_rows hdr srcRows outRows idxs r2 = .error e →
      (run_validation cfg hdr srcRows outRows stats expected idxs).1 =
        .error e ∧
      (run_validation cfg hdr srcRows outRows stats expected idxs).2 =
        [Tier.rowCount, Tier.checksums, Tier.sample]) := by
  refine ⟨?_, ?_, ?_, ?_⟩
  · unfold run_validation
    rcases h1 : validate_row_count outRows.length expected with e | r1
    · simp [h1]
    · rcases h2 : validate_checksums hdr outRows stats r1 cfg.sum_column
          (some cfg.key_columns) with e | r2
      · simp [h1, h2]
      · rcases h3 : validate_sample_rows hdr srcRows outRows idxs r2
            with e | r3 <;> simp [h1, h2, h3]
  · intro hne
    have h1 : validate_row_count outRows.length expected =
        .error (.dime (.rowCountMismatch expected outRows.length)) := by
      unfold validate_row_count
      rw [if_pos hne]
    unfold run_validation
    rw [h1]
    exact ⟨rfl, rfl, by simp, by simp⟩
  · intro r1 e h1 h2
    simp only [run_validation, h1, h2]
    simp
  · intro r1 r2 e h1 h2 h3
    simp only [run_validation, h1, h2, h3]
    simp

/-- Witness for C2, exercising each tier's failure at a concrete input: a
Tier 1 row-count mismatch (empty output against an expected count of 5), a
Tier 2 checksum-sum mismatch (streaming sum 99 against output sum 10), and
a Tier 3 sample mismatch (source id `a` against output id `b`). -/
theorem c2_witness :
    ((run_validation testConfig ["id", "amount"] [] [] (initStats testConfig)
        5 []).1 = .error (.dime (.rowCountMismatch 5 0)) ∧
     (run_validation testConfig ["id", "amount"] [] [] (initStats testConfig)
        5 []).2 = [Tier.rowCount] ∧
     Tier.checksums ∉ (run_validation testConfig ["id", "amount"] [] []
        (initStats testConfig) 5 []).2 ∧
     Tier.sample ∉ (run_validation testConfig ["id", "amount"] [] []
        (initStats testConfig) 5 []).2) ∧
    ((run_validation testConfig ["id", "amount"] [] outC3 statsBadSum
        1 []).1 = .error (.dime (.checksumMismatch ("amount" ++ " sum mismatch")
          "amount" (.f (.fin (intQ 99))) (.f (.fin (intQ 10))))) ∧
     (run_validation testConfig ["id", "amount"] [] outC3 statsBadSum
        1 []).2 = [Tier.rowCount, Tier.checksums] ∧
     Tier.sample ∉ (run_validation testConfig ["id", "amount"] [] outC3
        statsBadSum 1 []).2) ∧
    ((run_validation testConfig ["id", "amount"] [["a", "10.0"]] outB
        statsC3 1 [0]).1 = .error (.dime (.sampleMismatch 0 "id" "a" "b")) ∧
     (run_validation testConfig ["id", "amount"] [["a", "10.0"]] outB
        statsC3 1 [0]).2 =
        [Tier.rowCount, Tier.checksums, Tier.sample]) := by
  refine ⟨?_, ?_, ?_⟩
  · exact (c2_tiers_fail_fast testConfig ["id", "amount"] [] []
      (initStats testConfig) 5 []).2.1 (by decide)
  · exact (c2_tiers_fail_fast testConfig ["id", "amount"] [] outC3
      statsBadSum 1 []).2.2.1 r1W
      (.dime (.checksumMismatch ("amount" ++ " sum mismatch") "amount"
        (.f (.fin (intQ 99))) (.f (.fin (intQ 10)))))
      (by decide) (by decide)
  · exact (c2_tiers_fail_fast testConfig ["id", "amount"] [["a", "10.0"]]
      outB statsC3 1 [0]).2.2.2 r1W r2W
      (.dime (.sampleMismatch 0 "id" "a" "b"))
      (by decide) (by decide) (by decide)

/-- C7: the schema validator accepts exactly when the realized column-name
set equals the expected set — no subset or superset is tolerated — and on a
mismatch it raises `SchemaValidationError` whose message lists exactly the
missing column names and exactly the extra column names. -/
theorem c7_schema_validator (hdr : List String) (cfg : FileTypeConfig) :
    (validate_schema hdr cfg = .ok () ↔
      hdr.toFinset = cfg.expected_columns.toFinset) ∧
    (hdr.toFinset ≠ cfg.expected_columns.toFinset →
      validate_schema hdr cfg =
        .error (.dime (.schemaValidation cfg.expected_columns hdr)) ∧
      (∀ c, c ∈ schemaErrMissing cfg.expected_columns hdr ↔
        (c ∈ cfg.expected_columns ∧ c ∉ hdr)) ∧
      (∀ c, c ∈ schemaErrExtra cfg.expected_columns hdr ↔
        (c ∈ hdr ∧ c ∉ cfg.expected_columns))) := by
  constructor
  · unfold validate_schema
    by_cases h : hdr.toFinset = cfg.expected_columns.toFinset <;> simp [h]
  · intro h
    refine ⟨by unfold validate_schema; rw [if_pos h], ?_, ?_⟩
    · intro c
      unfold schemaErrMissing
      rw [(List.perm_insertionSort _ _).mem_iff]
      simp
    · intro c
      unfold schemaErrExtra
      rw [(List.perm_insertionSort _ _).mem_iff]
      simp

/-- Witness for C7 at a concrete mismatch: realized columns id, extra
against expected columns id, amount. -/
theorem c7_witness :
    validate_schema ["id", "extra"] testConfig =
      .error (.dime (.schemaValidation testConfig.expected_columns
        ["id", "extra"])) ∧
    ("amount" ∈ schemaErrMissing testConfig.expected_columns ["id", "extra"] ↔
      ("amount" ∈ testConfig.expected_columns ∧
        "amount" ∉ (["id", "extra"] : List String))) := by
  have h := (c7_schema_validator ["id", "extra"] testConfig).2 (by decide)
  exact ⟨h.1, h.2.1 "amount"⟩

/-- A column name present in the header has a position. -/
lemma colIdx_of_mem {c : String} :
    ∀ {l : List String}, c ∈ l → ∃ i, colIdx c l = some i := by
  intro l
  induction l with
  | nil => intro h; simp at h
  | cons a rest ih =>
    intro h
    by_cases ha : a = c
    · exact ⟨0, by simp [colIdx, ha]⟩
    · have hr : c ∈ rest := by
        rcases List.mem_cons.mp h with h' | h'
        · exact absurd h'.symm ha
        · exact h'
      obtain ⟨i, hi⟩ := ih hr
      exact ⟨i + 1, by simp [colIdx, ha, hi]⟩

/-- The Python float comparison `abs(x - y) > tol` is false exactly when the
absolute difference is at most the tolerance. -/
lemma subAbsGtTol_eq_false_iff (x y tol : MRat) :
    subAbsGtTol (.fin x) (.fin y) tol = false ↔ leQ (absQ (subQ x y)) tol := by
  simp [subAbsGtTol, bltQ, ltQ, leQ, Int.not_lt]

/-- The key-column loop of Tier 2 succeeds exactly when every key column's
streaming non-null count equals the output-recomputed one. -/
lemma checksumKeyLoop_ok_iff (hdr : List String) (outRows : List ParsedRow)
    (stats : StreamingStats) :
    ∀ (cols : List String) (result : ValidationResult),
      (∀ k ∈ cols, k ∈ hdr) →
      (exceptIsOk (checksumKeyLoop hdr outRows stats cols result) = true ↔
        ∀ col ∈ cols,
          lookupD stats.non_null_counts col = outColCount hdr outRows col) := by
  intro cols
  induction cols with
  | nil =>
    intro result _
    simp [checksumKeyLoop, exceptIsOk]
  | cons col rest ih =>
    intro result hmem
    obtain ⟨i, hi⟩ := colIdx_of_mem (hmem col (List.mem_cons_self _ _))
    have hcols : outColCount hdr outRows col =
        nonNullCount (outRows.map (fun r => (r.get? i).join)) := by
      unfold outColCount columnOf
      rw [hi]
    simp only [checksumKeyLoop, hi]
    by_cases hne : lookupD stats.non_null_counts col =
        nonNullCount (outRows.map (fun r => (r.get? i).join))
    · rw [if_neg (fun hcon => hcon hne)]
      rw [ih _ (fun k hk => hmem k (List.mem_cons_of_mem _ hk))]
      simp only [List.forall_mem_cons]
      constructor
      · intro hrest
        exact ⟨hcols ▸ hne, hrest⟩
      · intro hall
        exact hall.2
    · rw [if_pos hne]
      constructor
      · intro hok
        simp [exceptIsOk] at hok
      · intro hall
        exact absurd (hcols ▸ hall col (List.mem_cons_self _ _)) hne

/-- Any error of the key-column loop is a `ChecksumMismatchError` carrying
the violating column's name, its streaming count and its output count. -/
lemma checksumKeyLoop_error (hdr : List String) (outRows : List ParsedRow)
    (stats : StreamingStats) :
    ∀ (cols : List String) (result : ValidationResult) (e : PyErr),
      (∀ k ∈ cols, k ∈ hdr) →
      checksumKeyLoop hdr outRows stats cols result = .error e →
      ∃ col ∈ cols,
        e = .dime (.checksumMismatch ("Non-null count mismatch for " ++ col)
          col (.n (lookupD stats.non_null_counts col))
          (.n (outColCount hdr outRows col))) ∧
        lookupD stats.non_null_counts col ≠ outColCount hdr outRows col := by
  intro cols
  induction cols with
  | nil =>
    intro result e _ h
    simp [checksumKeyLoop] at h
  | cons col rest ih =>
    intro result e hmem h
    obtain ⟨i, hi⟩ := colIdx_of_mem (hmem col (List.mem_cons_self _ _))
    have hcols : outColCount hdr outRows col =
        nonNullCount (outRows.map (fun r => (r.get? i).join)) := by
      unfold outColCount columnOf
      rw [hi]
    simp only [checksumKeyLoop, hi] at h
    by_cases hne : lookupD stats.non_null_counts col =
        nonNullCount (outRows.map (fun r => (r.get? i).join))
    · rw [if_neg (fun hcon => hcon hne)] at h
      obtain ⟨col', hc', he⟩ :=
        ih _ e (fun k hk => hmem k (List.mem_cons_of_mem _ hk)) h
      exact ⟨col', List.mem_cons_of_mem _ hc', he⟩
    · rw [if_pos hne] at h
      injection h with h2
      refine ⟨col, List.mem_cons_self _ _, ?_, ?_⟩
      · rw [← h2, hcols]
      · rw [hcols]
        exact hne

/-- C3: Tier 2 passes exactly when the absolute difference between the
streaming checksum-column sum and the output-recomputed sum is at most 0.01
and every configured key column's streaming non-null count equals the
output's non-null count exactly; any violation raises
`ChecksumMismatchError` carrying the column name, the expected (streaming)
value and the actual (output) value. -/
theorem c3_checksum_tier (hdr : List String) (outRows : List ParsedRow)
    (stats : StreamingStats) (result : ValidationResult) (c : String)
    (keyCols : List String) (s p : MRat)
    (hs : stats.sum_column_value = .fin s)
    (hc : c ∈ hdr)
    (hkeys : ∀ k ∈ keyCols, k ∈ hdr)
    (hp : (sumFloat (columnOf hdr c outRows)).getD (.fin (intQ 0)) = .fin p) :
    (exceptIsOk (validate_checksums hdr outRows stats result (some c)
        (some keyCols)) = true ↔
      (leQ (absQ (subQ s p)) (mkQ 1 100) ∧
       ∀ col ∈ keyCols,
         lookupD stats.non_null_counts col = outColCount hdr outRows col)) ∧
    (∀ e, validate_checksums hdr outRows stats result (some c)
        (some keyCols) = .error e →
      (e = .dime (.checksumMismatch (c ++ " sum mismatch") c
          (.f (.fin s)) (.f (.fin p))) ∧
        ¬ leQ (absQ (subQ s p)) (mkQ 1 100)) ∨
      (∃ col ∈ keyCols,
        e = .dime (.checksumMismatch ("Non-null count mismatch for " ++ col)
          col (.n (lookupD stats.non_null_counts col))
          (.n (outColCount hdr outRows col))) ∧
        lookupD stats.non_null_counts col ≠ outColCount hdr outRows col)) := by
  obtain ⟨i, hi⟩ := colIdx_of_mem hc
  have hcolmap : columnOf hdr c outRows =
      outRows.map (fun r => (r.get? i).join) := by
    unfold columnOf
    rw [hi]
  have hps : (sumFloat (outRows.map (fun r => (r.get? i).join))).getD
      (.fin (intQ 0)) = .fin p := by
    rw [← hcolmap]
    exact hp
  simp only [validate_checksums, hi, hs, hps, Option.getD_some]
  cases hgt : subAbsGtTol (.fin s) (.fin p) (mkQ 1 100) with
  | true =>
    have hnle : ¬ leQ (absQ (subQ s p)) (mkQ 1 100) := by
      intro hle
      rw [(subAbsGtTol_eq_false_iff s p (mkQ 1 100)).mpr hle] at hgt
      exact Bool.false_ne_true hgt
    rw [if_pos rfl]
    constructor
    · simp [exceptIsOk, hnle]
    · intro e he
      injection he with h2
      exact Or.inl ⟨h2.symm, hnle⟩
  | false =>
    have hle : leQ (absQ (subQ s p)) (mkQ 1 100) :=
      (subAbsGtTol_eq_false_iff s p (mkQ 1 100)).mp hgt
    rw [if_neg Bool.false_ne_true]
    constructor
    · rw [checksumKeyLoop_ok_iff hdr outRows stats keyCols _ hkeys]
      simp [hle]
    · intro e he
      exact Or.inr (checksumKeyLoop_error hdr outRows stats keyCols _ e hkeys he)

/-- Witness for C3 at a concrete passing input: one output row whose sum
and non-null counts match the streaming stats exactly. -/
theorem c3_witness :
    exceptIsOk (validate_checksums ["id", "amount"] outC3 statsC3 {}
      (some "amount") (some ["id", "amount"])) = true :=
  (c3_checksum_tier ["id", "amount"] outC3 statsC3 {} "amount"
      ["id", "amount"] (intQ 10) (intQ 10) rfl (by decide) (by decide)
      (by decide)).1.mpr (by decide)

/-- A cell-conversion failure anywhere in a record makes the whole record
conversion fail. -/
lemma parseCells_eq_none (cfg : FileTypeConfig) :
    ∀ (ps : List (String × String)),
      (∃ p ∈ ps, (parseCell (colTypeOf cfg p.1) p.2).isNone = true) →
      parseCells cfg ps = Option.none := by
  intro ps
  induction ps with
  | nil =>
    rintro ⟨p, hp, _⟩
    simp at hp
  | cons q rest ih =>
    rintro ⟨p, hp, hbad⟩
    rcases List.mem_cons.mp hp with rfl | hp2
    · rw [Option.isNone_iff_eq_none] at hbad
      unfold parseCells
      rw [hbad]
    · unfold parseCells
      rw [ih ⟨p, hp2, hbad⟩]
      cases parseCell (colTypeOf cfg q.1) q.2 <;> rfl

/-- A record with a value that is unparseable under its declared column type
and is not a null token never parses. -/
lemma parseRow_eq_none_of_bad (cfg : FileTypeConfig) (hdr : List String)
    (r : RawRow) (h : hasBadValueB cfg hdr r = true) :
    parseRow cfg hdr r = Option.none := by
  unfold parseRow
  by_cases hlen : r.length = hdr.length
  · rw [if_pos hlen]
    unfold hasBadValueB at h
    obtain ⟨p, hp, hbad⟩ := List.any_eq_true.mp h
    exact parseCells_eq_none cfg _ ⟨p, hp, hbad⟩
  · rw [if_neg hlen]

/-- A record that converts successfully has the right field count. -/
lemma parseRow_isSome_length {cfg : FileTypeConfig} {hdr : List String}
    {r : RawRow} (h : (parseRow cfg hdr r).isSome = true) :
    r.length = hdr.length := by
  by_contra hne
  unfold parseRow at h
  rw [if_neg hne] at h
  simp at h

/-- The structural stage accepts a batch whose records all have the right
field count. -/
lemma firstStructural_none (hdr : List String) :
    ∀ (rows : List RawRow) (n : ℕ),
      (∀ r ∈ rows, r.length = hdr.length) →
      firstStructural hdr rows n = Option.none := by
  intro rows
  induction rows with
  | nil => intro n _; rfl
  | cons r rs ih =>
    intro n hall
    have hr : r.length = hdr.length := hall r (List.mem_cons_self _ _)
    simp only [firstStructural]
    rw [if_neg (fun hcon => hcon hr)]
    exact ih (n + 1) (fun x hx => hall x (List.mem_cons_of_mem _ hx))

/-- The structural stage reports the first wrong-field-count record with
its physical row number. -/
lemma firstStructural_first (hdr : List String) (bad : RawRow)
    (hbad : bad.length ≠ hdr.length) :
    ∀ (good tail : List RawRow) (n : ℕ),
      (∀ r ∈ good, r.length = hdr.length) →
      firstStructural hdr (good ++ bad :: tail) n =
        some (n + good.length, bad) := by
  intro good
  induction good with
  | nil =>
    intro tail n _
    simp [firstStructural, hbad]
  | cons g gs ih =>
    intro tail n hall
    have hg : g.length = hdr.length := hall g (List.mem_cons_self _ _)
    have h2 := ih tail (n + 1) (fun x hx => hall x (List.mem_cons_of_mem _ hx))
    have harith : n + 1 + gs.length = n + (gs.length + 1) := by omega
    rw [harith] at h2
    simp only [List.cons_append, firstStructural, List.append_eq]
    rw [if_neg (fun hcon => hcon hg), h2]
    simp [List.length_cons]

/-- A batch of valid records converts successfully. -/
lemma parseBatchAll_ok (cfg : FileTypeConfig) (hdr : List String) :
    ∀ (batch : List RawRow),
      (∀ r ∈ batch, (parseRow cfg hdr r).isSome = true) →
      ∃ pb, parseBatchAll cfg hdr batch = some pb := by
  intro batch
  induction batch with
  | nil => intro _; exact ⟨[], rfl⟩
  | cons r rs ih =>
    intro hall
    obtain ⟨pr, hpr⟩ :=
      Option.isSome_iff_exists.mp (hall r (List.mem_cons_self _ _))
    obtain ⟨pb, hpb⟩ := ih (fun x hx => hall x (List.mem_cons_of_mem _ hx))
    exact ⟨pr :: pb, by simp [parseBatchAll, hpr, hpb]⟩

/-- A typed-conversion failure anywhere in the batch fails the conversion
stage (carrying no row information). -/
lemma parseBatchAll_none (cfg : FileTypeConfig) (hdr : List String) :
    ∀ (batch : List RawRow) (bad : RawRow), bad ∈ batch →
      parseRow cfg hdr bad = Option.none →
      parseBatchAll cfg hdr batch = Option.none := by
  intro batch
  induction batch with
  | nil =>
    intro bad h _
    simp at h
  | cons r rs ih =>
    intro bad hmem hbad
    rcases List.mem_cons.mp hmem with rfl | hmem2
    · simp [parseBatchAll, hbad]
    · unfold parseBatchAll
      rw [ih bad hmem2 hbad]
      cases parseRow cfg hdr r <;> rfl

/-- One unfolding step of the batch loop on a non-empty record list. -/
lemma streamGo_cons (cfg : FileTypeConfig) (hdr : List String) (bsz f : ℕ)
    (rows : List RawRow) (st : StreamingStats) (acc : List ParsedRow) (n : ℕ)
    (h : rows ≠ []) :
    streamGo cfg hdr bsz (f + 1) rows st acc n =
      match firstStructural hdr (rows.take bsz) n with
      | some e =>
        .error (.dime (.csvParseError pyarrowErrMsg (some e.1) Option.none
          (some (truncate500 (rawText e.2)))))
      | Option.none =>
        match parseBatchAll cfg hdr (rows.take bsz) with
        | Option.none =>
          .error (.dime (.csvParseError pyarrowErrMsg Option.none Option.none
            Option.none))
        | some pb =>
          streamGo cfg hdr bsz f (rows.drop bsz) (processBatch cfg hdr st pb)
            (acc ++ pb) (n + (rows.take bsz).length) := by
  cases rows with
  | nil => exact absurd rfl h
  | cons r rs => rfl

/-- The batch loop aborts on the first record with an unparseable non-null
value (all records structurally valid), with no row information in the
error, whatever the batch boundaries. -/
lemma streamGo_conversion_fail (cfg : FileTypeConfig) (hdr : List String)
    (bsz : ℕ) (hbsz : 0 < bsz) (bad : RawRow)
    (hbadrow : parseRow cfg hdr bad = Option.none)
    (hbadlen : bad.length = hdr.length) :
    ∀ (fuel : ℕ) (good rest : List RawRow) (st : StreamingStats)
      (acc : List ParsedRow) (n : ℕ),
      (good ++ bad :: rest).length < fuel →
      (∀ r ∈ good, (parseRow cfg hdr r).isSome = true) →
      (∀ r ∈ rest, r.length = hdr.length) →
      streamGo cfg hdr bsz fuel (good ++ bad :: rest) st acc n =
        .error (.dime (.csvParseError pyarrowErrMsg Option.none Option.none
          Option.none)) := by
  intro fuel
  induction fuel with
  | zero =>
    intro good rest st acc n hf _ _
    exact absurd hf (by omega)
  | succ f ih =>
    intro good rest st acc n hf hgood hrest
    rw [streamGo_cons cfg hdr bsz f _ st acc n (by simp)]
    by_cases hlt : good.length < bsz
    · obtain ⟨k, hk⟩ : ∃ k, bsz - good.length = k + 1 :=
        ⟨bsz - good.length - 1, by omega⟩
      have htake : (good ++ bad :: rest).take bsz =
          good ++ bad :: rest.take k := by
        rw [List.take_append_eq_append_take,
          List.take_of_length_le (le_of_lt hlt), hk, List.take_succ_cons]
      have hstruct : firstStructural hdr ((good ++ bad :: rest).take bsz) n =
          Option.none := by
        rw [htake]
        apply firstStructural_none
        intro r hr
        rcases List.mem_append.mp hr with hr | hr
        · exact parseRow_isSome_length (hgood r hr)
        · rcases List.mem_cons.mp hr with rfl | hr
          · exact hbadlen
          · exact hrest r (List.take_subset k rest hr)
      have hconv : parseBatchAll cfg hdr ((good ++ bad :: rest).take bsz) =
          Option.none := by
        rw [htake]
        exact parseBatchAll_none cfg hdr _ bad
          (List.mem_append_right _ (List.mem_cons_self _ _)) hbadrow
      rw [hstruct, hconv]
    · have hle : bsz ≤ good.length := le_of_not_lt hlt
      have htake : (good ++ bad :: rest).take bsz = good.take bsz := by
        rw [List.take_append_eq_append_take, Nat.sub_eq_zero_of_le hle]
        simp
      have hdrop : (good ++ bad :: rest).drop bsz =
          good.drop bsz ++ bad :: rest := by
        rw [List.drop_append_eq_append_drop, Nat.sub_eq_zero_of_le hle]
        simp
      have hstruct : firstStructural hdr ((good ++ bad :: rest).take bsz) n =
          Option.none := by
        rw [htake]
        apply firstStructural_none
        intro r hr
        exact parseRow_isSome_length (hgood r (List.take_subset bsz good hr))
      obtain ⟨pb, hpb⟩ := parseBatchAll_ok cfg hdr (good.take bsz)
        (fun r hr => hgood r (List.take_subset bsz good hr))
      have hlen2 : (good.drop bsz ++ bad :: rest).length < f := by
        simp only [List.length_append, List.length_cons, List.length_drop] at *
        omega
      rw [hstruct, htake, hpb, hdrop]
      exact ih (good.drop bsz) rest _ _ _ hlen2
        (fun r hr => hgood r (List.drop_subset bsz good hr)) hrest

/-- The batch loop aborts on the first wrong-field-count record, reporting
its physical row number and truncated raw text, whatever the batch
boundaries. -/
lemma streamGo_structural_fail (cfg : FileTypeConfig) (hdr : List String)
    (bsz : ℕ) (hbsz : 0 < bsz) (bad : RawRow)
    (hbadlen : bad.length ≠ hdr.length) :
    ∀ (fuel : ℕ) (good rest : List RawRow) (st : StreamingStats)
      (acc : List ParsedRow) (n : ℕ),
      (good ++ bad :: rest).length < fuel →
      (∀ r ∈ good, (parseRow cfg hdr r).isSome = true) →
      streamGo cfg hdr bsz fuel (good ++ bad :: rest) st acc n =
        .error (.dime (.csvParseError pyarrowErrMsg (some (n + good.length))
          Option.none (some (truncate500 (rawText bad))))) := by
  intro fuel
  induction fuel with
  | zero =>
    intro good rest st acc n hf _
    exact absurd hf (by omega)
  | succ f ih =>
    intro good rest st acc n hf hgood
    rw [streamGo_cons cfg hdr bsz f _ st acc n (by simp)]
    by_cases hlt : good.length < bsz
    · obtain ⟨k, hk⟩ : ∃ k, bsz - good.length = k + 1 :=
        ⟨bsz - good.length - 1, by omega⟩
      have htake : (good ++ bad :: rest).take bsz =
          good ++ bad :: rest.take k := by
        rw [List.take_append_eq_append_take,
          List.take_of_length_le (le_of_lt hlt), hk, List.take_succ_cons]
      have hstruct : firstStructural hdr ((good ++ bad :: rest).take bsz) n =
          some (n + good.length, bad) := by
        rw [htake]
        exact firstStructural_first hdr bad hbadlen good _ n
          (fun r hr => parseRow_isSome_length (hgood r hr))
      rw [hstruct]
    · have hle : bsz ≤ good.length := le_of_not_lt hlt
      have htake : (good ++ bad :: rest).take bsz = good.take bsz := by
        rw [List.take_append_eq_append_take, Nat.sub_eq_zero_of_le hle]
        simp
      have hdrop : (good ++ bad :: rest).drop bsz =
          good.drop bsz ++ bad :: rest := by
        rw [List.drop_append_eq_append_drop, Nat.sub_eq_zero_of_le hle]
        simp
      have hstruct : firstStructural hdr ((good ++ bad :: rest).take bsz) n =
          Option.none := by
        rw [htake]
        apply firstStructural_none
        intro r hr
        exact parseRow_isSome_length (hgood r (List.take_subset bsz good hr))
      obtain ⟨pb, hpb⟩ := parseBatchAll_ok cfg hdr (good.take bsz)
        (fun r hr => hgood r (List.take_subset bsz good hr))
      have hlen2 : (good.drop bsz ++ bad :: rest).length < f := by
        simp only [List.length_append, List.length_cons, List.length_drop] at *
        omega
      have h2 := ih (good.drop bsz) rest
        (processBatch cfg hdr st pb) (acc ++ pb)
        (n + (good.take bsz).length) hlen2
        (fun r hr => hgood r (List.drop_subset bsz good hr))
      have harith : n + (good.take bsz).length + (good.drop bsz).length =
          n + good.length := by
        simp only [List.length_take, List.length_drop]
        omega
      rw [harith] at h2
      rw [hstruct, htake, hpb, hdrop]
      exact h2

/-- A streaming failure propagates out of `convert_dime_file` unchanged
(the schema and validation steps are never reached). -/
lemma convert_error_of_stream_error (cfg : FileTypeConfig)
    (hdr : List String) (rows : List RawRow) (validate : Bool)
    (idxs : List ℕ) (bsz : ℕ) (e : PyErr)
    (hs : streamCsvToParquet cfg hdr rows bsz = .error e) :
    convert_dime_file (.content (hdr :: rows)) cfg validate idxs bsz =
      .error e := by
  have hred : convert_dime_file (.content (hdr :: rows)) cfg validate idxs
      bsz =
      (match streamCsvToParquet cfg hdr rows bsz with
       | .error e2 => .error e2
       | .ok (stats, outRows) =>
         match validate_schema_opt stats.schema cfg with
         | .error e2 => .error e2
         | .ok _ =>
           if validate then
             match (run_validation cfg hdr rows outRows stats rows.length
                 idxs).1 with
             | .error e2 => .error e2
             | .ok vr => .ok { row_count := stats.row_count, validation := vr }
           else .ok { row_count := stats.row_count, validation := {} }) := rfl
  rw [hred, hs]

/-- C1 (counterexample): a source whose second data record carries the
non-numeric value `xyz` in the declared-float `amount` column aborts with
`CSVParseError`, but the error's `line_number` and `problematic_value` are
both `None` — PyArrow's invalid-row handler fires only for wrong-field-count
records, so a typed-conversion failure leaves `invalid_rows` empty and the
error does not carry the offending row's number or raw text as claimed. -/
theorem c1_counterexample :
    convert_dime_file
        (.content (["id", "amount"] :: [["a", "10.0"], ["b", "xyz"]]))
        testConfig true [] 2 =
      .error (.dime (.csvParseError pyarrowErrMsg Option.none Option.none
        Option.none)) := by
  decide

/-- C1 (amended): a record holding a value that is not parseable under its
declared column type and is not a null token makes `convert_dime_file`
abort with `CSVParseError` — no silent coercion, no dropped rows, no
`ConversionResult` — but since typed-conversion failures never reach the
invalid-row handler, that error carries `line_number = None` and
`problematic_value = None`; the offending record's physical row number
(header = row 1, data record `i` = row `i + 2`) and truncated raw text are
carried exactly when the run instead aborts on a structurally invalid
record (wrong field count), which the handler does collect. -/
theorem c1_abort_and_error_payload :
    (∀ (cfg : FileTypeConfig) (hdr : List String) (good : List RawRow)
        (bad : RawRow) (rest : List RawRow) (validate : Bool)
        (idxs : List ℕ) (bsz : ℕ),
      0 < bsz →
      (∀ r ∈ good, (parseRow cfg hdr r).isSome = true) →
      hasBadValueB cfg hdr bad = true →
      bad.length = hdr.length →
      (∀ r ∈ rest, r.length = hdr.length) →
      convert_dime_file (.content (hdr :: (good ++ bad :: rest))) cfg
          validate idxs bsz =
        .error (.dime (.csvParseError pyarrowErrMsg Option.none Option.none
          Option.none))) ∧
    (∀ (cfg : FileTypeConfig) (hdr : List String) (good : List RawRow)
        (bad : RawRow) (rest : List RawRow) (validate : Bool)
        (idxs : List ℕ) (bsz : ℕ),
      0 < bsz →
      (∀ r ∈ good, (parseRow cfg hdr r).isSome = true) →
      bad.length ≠ hdr.length →
      convert_dime_file (.content (hdr :: (good ++ bad :: rest))) cfg
          validate idxs bsz =
        .error (.dime (.csvParseError pyarrowErrMsg (some (2 + good.length))
          Option.none (some (truncate500 (rawText bad)))))) := by
  constructor
  · intro cfg hdr good bad rest validate idxs bsz hbsz hgood hbad hbadlen hrest
    have hbadrow := parseRow_eq_none_of_bad cfg hdr bad hbad
    exact convert_error_of_stream_error cfg hdr _ validate idxs bsz _
      (streamGo_conversion_fail cfg hdr bsz hbsz bad hbadrow hbadlen
        ((good ++ bad :: rest).length + 1) good rest (initStats cfg) [] 2
        (by omega) hgood hrest)
  · intro cfg hdr good bad rest validate idxs bsz hbsz hgood hbadlen
    exact convert_error_of_stream_error cfg hdr _ validate idxs bsz _
      (streamGo_structural_fail cfg hdr bsz hbsz bad hbadlen
        ((good ++ bad :: rest).length + 1) good rest (initStats cfg) [] 2
        (by omega) hgood)

set_option maxRecDepth 10000 in
/-- Witness for C1 (amended): a value-conversion failure (`xyz` in the
declared-float `amount` column) aborts with the row-less `CSVParseError`,
while a wrong-field-count record aborts with its physical row number 3 and
raw text. -/
theorem c1_witness :
    convert_dime_file
        (.content (["id", "amount"] ::
          ([["a", "10.0"]] ++ ["b", "xyz"] :: [])))
        testConfig true [] 2 =
      .error (.dime (.csvParseError pyarrowErrMsg Option.none Option.none
        Option.none)) ∧
    convert_dime_file
        (.content (["id", "amount"] :: ([["a", "10.0"]] ++ ["b"] :: [])))
        testConfig true [] 2 =
      .error (.dime (.csvParseError pyarrowErrMsg (some 3) Option.none
        (some "b"))) := by
  constructor
  · exact c1_abort_and_error_payload.1 testConfig ["id", "amount"]
      [["a", "10.0"]] ["b", "xyz"] [] true [] 2 (by decide) (by decide)
      (by decide) (by decide) (by decide)
  · have h := c1_abort_and_error_payload.2 testConfig ["id", "amount"]
      [["a", "10.0"]] ["b"] [] true [] 2 (by decide) (by decide) (by decide)
    rw [h]
    decide

/-- C4 (counterexample): Tier 3 compares numeric values with a strict
absolute tolerance of 1e-6, not a relative one.  The pair 2000000 (source)
and 2000001 (output) lies well within a 1e-6 relative tolerance, yet
`_values_equal` judges it unequal and sample validation raises
`SampleMismatchError` on it. -/
theorem c4_counterexample :
    values_equal (normalize_value (.str "2000000"))
        (normalize_value (.float (.fin (intQ 2000001)))) = false ∧
    |(2000000 : ℚ) - 2000001| / 2000001 < 1 / 1000000 ∧
    validate_sample_rows ["amount"] [["2000000"]]
        [[some (.float (.fin (intQ 2000001)))]] [0] {} =
      .error (.dime (.sampleMismatch 0 "amount" "2000000" "2000001")) := by
  refine ⟨by decide, by norm_num, by decide⟩

/-- The NaN literals never parse as finite floats. -/
lemma parseFloatQ_nanlit (s : String)
    (h : lowerStr s = "nan" ∨ lowerStr s = "+nan" ∨ lowerStr s = "-nan") :
    parseFloatQ s = Option.none := by
  unfold parseFloatQ
  rcases h with h | h | h <;> rw [h] <;> rfl

/-- A string parsing as a finite float parses as that float value. -/
lemma parseFloatV_fin {s : String} {q : MRat} (h : parseFloatQ s = some q) :
    parseFloatV s = some (.fin q) := by
  unfold parseFloatV
  have hn : ¬ (lowerStr s = "nan" ∨ lowerStr s = "+nan" ∨
      lowerStr s = "-nan") := by
    intro hc
    rw [parseFloatQ_nanlit s hc] at h
    exact Option.noConfusion h
  rw [if_neg hn, h]
  rfl

/-- On two float-parseable strings, `_values_equal` is exactly the strict
absolute comparison of the parsed values against 1e-6. -/
lemma values_equal_parseable (s t : String) (qs qt : MRat)
    (hs : parseFloatQ s = some qs) (ht : parseFloatQ t = some qt) :
    values_equal (.str s) (.str t) =
      bltQ (absQ (subQ qs qt)) (mkQ 1 1000000) := by
  simp only [values_equal, toNumF]
  rw [parseFloatV_fin hs, parseFloatV_fin ht]

/-- The column loop of one sampled row, as a function of its mismatch
list. -/
lemma compareCols_eq (srcRow : RawRow) (outRow : Option ParsedRow)
    (rowIdx : ℕ) :
    ∀ cols : List (ℕ × String),
      compareCols srcRow outRow rowIdx cols =
        match rowMismatches srcRow outRow cols with
        | [] => .ok ()
        | (col, sn, pn) :: _ =>
          .error (.dime (.sampleMismatch rowIdx col (strOfPy sn)
            (strOfPy pn))) := by
  intro cols
  induction cols with
  | nil => rfl
  | cons p rest ih =>
    obtain ⟨i, col⟩ := p
    cases hval : values_equal (normalize_value (srcCellPy srcRow i))
        (normalize_value (outCellPy outRow i)) with
    | true => simp [compareCols, rowMismatches, hval, ih]
    | false => simp [compareCols, rowMismatches, hval]

/-- The sampled-row loop, as a function of the global mismatch list. -/
lemma sampleLoop_eq (hdr : List String) (srcRows : List RawRow)
    (outRows : List ParsedRow) :
    ∀ (idxs : List ℕ) (result : ValidationResult),
      (∀ i ∈ idxs, i < srcRows.length) →
      sampleLoop hdr srcRows outRows idxs result =
        match sampleMismatches hdr srcRows outRows idxs with
        | [] => .ok { result with sample_valid := true }
        | (idx, col, sn, pn) :: _ =>
          .error (.dime (.sampleMismatch idx col (strOfPy sn)
            (strOfPy pn))) := by
  intro idxs
  induction idxs with
  | nil => intro result _; rfl
  | cons idx rest ih =>
    intro result hbound
    have hidx : idx < srcRows.length := hbound idx (List.mem_cons_self _ _)
    obtain ⟨srow, hsrow⟩ : ∃ srow, srcRows.get? idx = some srow :=
      ⟨srcRows.get ⟨idx, hidx⟩, List.get?_eq_get hidx⟩
    simp only [sampleLoop, hsrow]
    rw [compareCols_eq]
    simp only [sampleMismatches, hsrow, Option.getD_some]
    cases hrm : rowMismatches srow (outRows.get? idx) hdr.enum with
    | nil =>
      simp only [List.map_nil, List.nil_append]
      exact ih result (fun i hi => hbound i (List.mem_cons_of_mem _ hi))
    | cons m ms =>
      obtain ⟨col, sn, pn⟩ := m
      simp [List.map_cons]

/-- C4 (amended): in Tier 3's value comparison both values are first
normalized — `None`, the empty string, the `\\N` null token and NaN all map
to the canonical null, and strings are stripped; numeric values are parsed
and compared with a strict ABSOLUTE tolerance of 1e-6 (not a relative one);
values that are not both numeric are compared as (trimmed) strings; and the
first mismatch, in row-major iteration order, raises `SampleMismatchError`
carrying the sampled row index, the column name, and the stringified
expected and actual normalized values. -/
theorem c4_amended_sample_comparison :
    (normalize_value PyVal.none = PyVal.none ∧
     normalize_value (.str "") = PyVal.none ∧
     normalize_value (.str "\\N") = PyVal.none ∧
     normalize_value (.float .nan) = PyVal.none ∧
     (∀ s : String, normalize_value (.str s) = PyVal.none ∨
        normalize_value (.str s) = .str (trimStr s))) ∧
    (∀ (s t : String) (qs qt : MRat), parseFloatQ s = some qs →
      parseFloatQ t = some qt →
      (values_equal (.str s) (.str t) = true ↔
        ltQ (absQ (subQ qs qt)) (mkQ 1 1000000))) ∧
    (∀ s t : String,
      parseFloatV s = Option.none ∨ parseFloatV t = Option.none →
      (values_equal (.str s) (.str t) = true ↔ s = t)) ∧
    (∀ (hdr : List String) (srcRows : List RawRow)
        (outRows : List ParsedRow) (idxs : List ℕ)
        (res : ValidationResult),
      (∀ i ∈ idxs, i < srcRows.length) →
      validate_sample_rows hdr srcRows outRows idxs res =
        match sampleMismatches hdr srcRows outRows idxs with
        | [] =>
          .ok { res with sample_size := idxs.length, sample_valid := true }
        | (idx, col, sn, pn) :: _ =>
          .error (.dime (.sampleMismatch idx col (strOfPy sn)
            (strOfPy pn)))) := by
  refine ⟨⟨rfl, rfl, rfl, rfl, ?_⟩, ?_, ?_, ?_⟩
  · intro s
    by_cases h1 : s = "" ∨ s = "\\N"
    · left
      simp [normalize_value, h1]
    · by_cases h2 : lowerStr (trimStr s) = "nan"
      · left
        simp [normalize_value, h1, h2]
      · right
        simp [normalize_value, h1, h2]
  · intro s t qs qt hs ht
    rw [values_equal_parseable s t qs qt hs ht]
    unfold bltQ
    exact decide_eq_true_iff
  · intro s t h
    have hstr : values_equal (.str s) (.str t) = decide (s = t) := by
      rcases h with h | h
      · cases hpt : parseFloatV t <;>
          simp [values_equal, toNumF, strOfPy, h, hpt]
      · cases hps : parseFloatV s <;>
          simp [values_equal, toNumF, strOfPy, h, hps]
    rw [hstr]
    exact decide_eq_true_iff
  · intro hdr srcRows outRows idxs res hbound
    unfold validate_sample_rows
    rw [sampleLoop_eq hdr srcRows outRows idxs _ hbound]

/-- Witness for C4 (amended): 0.5 and 0.5000001 differ by 1e-7 and compare
equal; a matching one-row sample passes, returning a valid result. -/
theorem c4_witness :
    values_equal (.str "0.5") (.str "0.5000001") = true ∧
    validate_sample_rows ["amount"] [["10.0"]]
        [[some (.float (.fin (intQ 10)))]] [0] {} =
      .ok { sample_valid := true, sample_size := 1 } := by
  constructor
  · exact (c4_amended_sample_comparison.2.1 "0.5" "0.5000001" (mkQ 1 2)
      (mkQ 5000001 10000000) (by decide) (by decide)).mpr (by decide)
  · have h := c4_amended_sample_comparison.2.2.2 ["amount"] [["10.0"]]
      [[some (.float (.fin (intQ 10)))]] [0] {} (by decide)
    rw [h]
    decide

/-- C9: whenever two normalized values are strings that both parse as
floats, Tier 3 judges them equal as soon as the parsed values differ by
less than 1e-6 — in particular the numerically equal identifier strings
`007`/`7` and `1.0`/`1` always compare equal, even though
`transaction.id` is a declared-string column, so a conversion that loses
leading zeros in a string-typed ID column passes sample validation
undetected. -/
theorem c9_numeric_string_comparison :
    (∀ (a b : String) (qa qb : MRat), parseFloatQ a = some qa →
      parseFloatQ b = some qb → ltQ (absQ (subQ qa qb)) (mkQ 1 1000000) →
      values_equal (.str a) (.str b) = true) ∧
    values_equal (normalize_value (.str "007"))
      (normalize_value (.str "7")) = true ∧
    values_equal (normalize_value (.str "1.0"))
      (normalize_value (.str "1")) = true ∧
    colTypeOf CONTRIBUTIONS_CONFIG "transaction.id" = ColType.str ∧
    validate_sample_rows ["transaction.id"] [["007"]] [[some (.str "7")]]
        [0] {} =
      .ok { sample_valid := true, sample_size := 1 } := by
  refine ⟨?_, by decide, by decide, by decide, by decide⟩
  intro a b qa qb ha hb hlt
  rw [values_equal_parseable a b qa qb ha hb]
  exact decide_eq_true hlt

/-- Witness for C9: the identifier strings `007` and `7` compare equal. -/
theorem c9_witness :
    values_equal (.str "007") (.str "7") = true :=
  c9_numeric_string_comparison.1 "007" "7" (intQ 7) (intQ 7) (by decide)
    (by decide) (by decide)

end PaperTrail
